import Mathlib

/-!
Verification of the Thecus N5550 board-support module
(`src/n5550_board/n5550_board.c`) against its natural-language design
specification.  The module's data and control flow are shallowly embedded:
external kernel collaborators (PCI lookup, I2C registration, port I/O,
platform-device registration) are modelled as explicit environment records,
and each C function becomes a Lean function from such an environment to an
outcome record tracking its return value and its externally visible effects.
-/

namespace N5550

/-! ## Error codes (from `errno.h`, negated on return as in the kernel) -/

def ENODEV : Int := 19
def EINVAL : Int := 22
def EBUSY : Int := 16

/-! ## Controller Locator: `n5550_get_ich_gpiobase` -/

/-- A registered GPIO controller as seen through `struct gpio_chip`:
the embedding keeps only the fields the module reads (`label`, `base`).
A missing (`NULL`) label is `none`. -/
structure GpioChip where
  label : Option String
  base : Int
deriving DecidableEq, Repr

/-- `n5550_match_ich_gpiochip`: true iff the chip's label is non-NULL and
string-equal to `"gpio_ich"`. -/
def n5550_match_ich_gpiochip (gc : GpioChip) : Bool :=
  match gc.label with
  | none => false
  | some l => l = "gpio_ich"

/-- `n5550_get_ich_gpiobase`: `gpiochip_find` scans the registered chips in
order and returns the first match; `-ENODEV` if none matches, `-EINVAL` if
the match has a negative base, else the base. -/
def n5550_get_ich_gpiobase (chips : List GpioChip) : Int :=
  match chips.find? n5550_match_ich_gpiochip with
  | none => -ENODEV
  | some gc => if gc.base < 0 then -EINVAL else gc.base

/-! ## LED Device Bring-up: `n5550_ich_gpio_led_setup` -/

/-- One `struct gpio_led` entry of `n5550_ich_gpio_leds`. -/
structure GpioLed where
  name : String
  default_trigger : String
  active_low : Bool
  default_state_off : Bool
  gpio : Int
deriving DecidableEq, Repr

def n5550_def_trigger : String := "blkdev"

/-- The static `n5550_ich_gpio_leds[5]` array; `gpio` starts zeroed as C
static storage does. -/
def n5550_ich_gpio_leds : List GpioLed :=
  [ ⟨"n5550:green:disk-act-0", n5550_def_trigger, true, true, 0⟩,
    ⟨"n5550:green:disk-act-1", n5550_def_trigger, true, true, 0⟩,
    ⟨"n5550:green:disk-act-2", n5550_def_trigger, true, true, 0⟩,
    ⟨"n5550:green:disk-act-3", n5550_def_trigger, true, true, 0⟩,
    ⟨"n5550:green:disk-act-4", n5550_def_trigger, true, true, 0⟩ ]

/-- `n5550_ich_gpio_led_offsets[5] = { 0, 2, 3, 4, 5 }`. -/
def n5550_ich_gpio_led_offsets : List Int := [0, 2, 3, 4, 5]

/-- Outcome of `n5550_ich_gpio_led_setup`: return value, the LED array after
the call, and whether `platform_device_register` was reached. -/
structure LedSetupOutcome where
  ret : Int
  leds : List GpioLed
  registered : Bool
deriving DecidableEq, Repr

/-- `n5550_ich_gpio_led_setup`: calls the locator; a negative result is
returned unchanged without touching the LED array or registering.  Otherwise
each LED's `gpio` is set to `base + offset[i]` and the platform device is
registered; `regResult` is the (external) return of
`platform_device_register`. -/
def n5550_ich_gpio_led_setup (chips : List GpioChip) (regResult : Int) :
    LedSetupOutcome :=
  let base := n5550_get_ich_gpiobase chips
  if base < 0 then
    ⟨base, n5550_ich_gpio_leds, false⟩
  else
    ⟨regResult,
     List.zipWith (fun led off => { led with gpio := base + off })
       n5550_ich_gpio_leds n5550_ich_gpio_led_offsets,
     true⟩

/-! ## GPIO Enable Fixup: `n5550_ich_gpio_setup` -/

def N5550_ICH_PCI_GPIO_BASE : Nat := 0x48
def N5550_ICH_PCI_GPIO_CTRL : Nat := 0x4c

def N5550_ICH_GPIO_USE_SEL_0 : Nat := 0x00
def N5550_ICH_GPIO_USE_SEL_1 : Nat := 0x30

/-- `N5550_ICH_GPIO_PINS_0`: bits 0, 2, 3, 4, 5, 9 and 28. -/
def N5550_ICH_GPIO_PINS_0 : Nat :=
  (1 <<< 0) ||| (1 <<< 2) ||| (1 <<< 3) ||| (1 <<< 4) ||| (1 <<< 5) |||
  (1 <<< 9) ||| (1 <<< 28)

/-- `N5550_ICH_GPIO_PINS_1 = 1 << (34 - 32)`. -/
def N5550_ICH_GPIO_PINS_1 : Nat := 1 <<< (34 - 32)

/-- The read-modify-write the fixup performs on the pair of 32-bit
pin-ownership registers: `inl`, OR the fixed mask, `outl`, for
`USE_SEL_0` and `USE_SEL_1` respectively. -/
def n5550_ich_gpio_rmw (regs : Nat × Nat) : Nat × Nat :=
  (regs.1 ||| N5550_ICH_GPIO_PINS_0, regs.2 ||| N5550_ICH_GPIO_PINS_1)

/-- Environment of `n5550_ich_gpio_setup`: whether
`pci_get_device(INTEL, 0x3a16)` finds the LPC function, the 32-bit value
`pci_read_config_dword` yields at register 0x48, and the current values the
two `inl` reads return for the `USE_SEL_0` / `USE_SEL_1` ports. -/
structure IchGpioEnv where
  lpcPresent : Bool
  config48 : Nat
  useSel0 : Nat
  useSel1 : Nat
deriving DecidableEq, Repr

/-- Outcome of `n5550_ich_gpio_setup`: return value, number of
`pci_dev_put` calls, the list of PCI config-space byte writes
(register, value), and the list of port-mapped 32-bit writes
(port, value), in program order. -/
structure IchGpioOutcome where
  ret : Int
  pciPuts : Nat
  configByteWrites : List (Nat × Nat)
  portWrites : List (Nat × Nat)
deriving DecidableEq, Repr

/-- `n5550_ich_gpio_setup`: find the LPC function or fail `-ENODEV` with
nothing written; otherwise mask the GPIO I/O base out of config register
0x48, unconditionally write byte `0x10` to config register 0x4c, then
read-modify-write the two pin-ownership port registers and drop the PCI
device reference. -/
def n5550_ich_gpio_setup (env : IchGpioEnv) : IchGpioOutcome :=
  if ¬ env.lpcPresent then
    ⟨-ENODEV, 0, [], []⟩
  else
    let gpio_io_base := env.config48 &&& 0x0000ff80
    let sel0 := env.useSel0 ||| N5550_ICH_GPIO_PINS_0
    let sel1 := env.useSel1 ||| N5550_ICH_GPIO_PINS_1
    ⟨0, 1,
     [(N5550_ICH_PCI_GPIO_CTRL, 0x10)],
     [(gpio_io_base + N5550_ICH_GPIO_USE_SEL_0, sel0),
      (gpio_io_base + N5550_ICH_GPIO_USE_SEL_1, sel1)]⟩

/-! ## Satellite Chip Bring-up: `n5550_pca9532_setup` -/

/-- Environment of `n5550_pca9532_setup`: whether
`pci_get_device(INTEL, 0x3a30)` finds the I2C bridge, whether
`pci_get_drvdata` yields an adapter, whether `try_module_get` on the
adapter's owner succeeds, and whether each of the two
`i2c_new_client_device` registrations succeeds. -/
structure Pca9532Env where
  i2cPciPresent : Bool
  adapterPresent : Bool
  moduleGetOk : Bool
  reg0Ok : Bool
  reg1Ok : Bool
deriving DecidableEq, Repr

/-- Outcome of `n5550_pca9532_setup`: return value, number of successful
`try_module_get` acquisitions, number of `module_put` releases, number of
`pci_dev_put` calls, number of `i2c_new_client_device` attempts, and how
often the first chip's device was unregistered on the rollback path. -/
structure Pca9532Outcome where
  ret : Int
  moduleGets : Nat
  modulePuts : Nat
  pciPuts : Nat
  regAttempts : Nat
  unreg0 : Nat
deriving DecidableEq, Repr

/-- `n5550_pca9532_setup`: locate the I2C bridge function, fetch its
adapter, pin the adapter's owning driver, register the two PCA9532
descriptors (bus addresses 0x64 then 0x62), rolling back the first
registration if the second fails, and release the transient driver
reference and the PCI device reference on every exit path past their
acquisition. -/
def n5550_pca9532_setup (env : Pca9532Env) : Pca9532Outcome :=
  if ¬ env.i2cPciPresent then
    ⟨-ENODEV, 0, 0, 0, 0, 0⟩
  else if ¬ env.adapterPresent then
    ⟨-ENODEV, 0, 0, 1, 0, 0⟩
  else if ¬ env.moduleGetOk then
    ⟨-EBUSY, 0, 0, 1, 0, 0⟩
  else if ¬ env.reg0Ok then
    ⟨-ENODEV, 1, 1, 1, 1, 0⟩
  else if ¬ env.reg1Ok then
    ⟨-ENODEV, 1, 1, 1, 2, 1⟩
  else
    ⟨0, 1, 1, 1, 2, 0⟩

/-! ## Pin Map: the two PCA9532 role tables -/

/-- `enum pca9532_type` from `leds-pca9532.h`. -/
inductive Pca9532Type where
  | NONE
  | LED
  | N2100_BEEP
  | GPIO
deriving DecidableEq, Repr

/-- `enum pca9532_state` from `leds-pca9532.h`; `OFF` is the zero value C
static initialisation leaves in unset `state` fields. -/
inductive Pca9532State where
  | OFF
  | ON
  | PWM0
  | PWM1
deriving DecidableEq, Repr

/-- One slot of a `pca9532_platform_data.leds` table; unset `name` is the
empty string and unset `state` is `OFF`, as C zero-initialisation gives. -/
structure Pca9532Led where
  name : String
  type : Pca9532Type
  state : Pca9532State
deriving DecidableEq, Repr

/-- Shorthand for an all-zero (`PCA9532_TYPE_NONE`) slot. -/
def pcaNone : Pca9532Led := ⟨"", Pca9532Type.NONE, Pca9532State.OFF⟩

/-- `struct pca9532_platform_data` (the fields the module initialises). -/
structure Pca9532PlatformData where
  leds : List Pca9532Led
  pwm : Nat × Nat
  psc : Nat × Nat
deriving DecidableEq, Repr

/-- `n5550_pca9532_0_pdata`: slots 0–4 are the red disk-stat LEDs, all
remaining slots are `PCA9532_TYPE_NONE`. -/
def n5550_pca9532_0_pdata : Pca9532PlatformData :=
  { leds :=
      [ ⟨"n5550:red:disk-stat-0", Pca9532Type.LED, Pca9532State.OFF⟩,
        ⟨"n5550:red:disk-stat-1", Pca9532Type.LED, Pca9532State.OFF⟩,
        ⟨"n5550:red:disk-stat-2", Pca9532Type.LED, Pca9532State.OFF⟩,
        ⟨"n5550:red:disk-stat-3", Pca9532Type.LED, Pca9532State.OFF⟩,
        ⟨"n5550:red:disk-stat-4", Pca9532Type.LED, Pca9532State.OFF⟩,
        pcaNone, pcaNone, pcaNone, pcaNone, pcaNone, pcaNone,
        pcaNone, pcaNone, pcaNone, pcaNone, pcaNone ],
    pwm := (0, 0),
    psc := (0, 0) }

/-- `n5550_pca9532_1_pdata`: slots 0–3 and 15 are multiplexed GPIO pins,
slot 9 the orange busy LED, slot 10 the blue USB LED, slot 12 the red fail
LED; the rest are `PCA9532_TYPE_NONE`. -/
def n5550_pca9532_1_pdata : Pca9532PlatformData :=
  { leds :=
      [ ⟨"", Pca9532Type.GPIO, Pca9532State.OFF⟩,
        ⟨"", Pca9532Type.GPIO, Pca9532State.OFF⟩,
        ⟨"", Pca9532Type.GPIO, Pca9532State.OFF⟩,
        ⟨"", Pca9532Type.GPIO, Pca9532State.OFF⟩,
        pcaNone, pcaNone, pcaNone, pcaNone, pcaNone,
        ⟨"n5550:orange:busy", Pca9532Type.LED, Pca9532State.OFF⟩,
        ⟨"n5550:blue:usb", Pca9532Type.LED, Pca9532State.OFF⟩,
        pcaNone,
        ⟨"n5550:red:fail", Pca9532Type.LED, Pca9532State.OFF⟩,
        pcaNone, pcaNone,
        ⟨"", Pca9532Type.GPIO, Pca9532State.OFF⟩ ],
    pwm := (0, 0),
    psc := (0, 0) }

/-- `struct i2c_board_info` (the fields the module initialises): driver
name, 7-bit bus address and the attached platform data. -/
structure I2cBoardInfo where
  typ : String
  addr : Nat
  platform_data : Pca9532PlatformData
deriving DecidableEq, Repr

/-- `n5550_pca9532_0_info`: first satellite chip, bus address 0x64. -/
def n5550_pca9532_0_info : I2cBoardInfo :=
  ⟨"pca9532", 0x64, n5550_pca9532_0_pdata⟩

/-- `n5550_pca9532_1_info`: second satellite chip, bus address 0x62. -/
def n5550_pca9532_1_info : I2cBoardInfo :=
  ⟨"pca9532", 0x62, n5550_pca9532_1_pdata⟩

/-! ## Tear-down events and the Lifecycle Orchestrator -/

/-- Externally visible unregistration events of the cleanup paths. -/
inductive CleanupEvent where
  | unregSat0
  | unregSat1
  | unregLedDev
deriving DecidableEq, Repr

/-- `n5550_pca9532_cleanup`: unregisters the first satellite client, then
the second. -/
def n5550_pca9532_cleanup : List CleanupEvent :=
  [CleanupEvent.unregSat0, CleanupEvent.unregSat1]

/-- `n5550_ich_gpio_led_cleanup`: unregisters the aggregate LED platform
device. -/
def n5550_ich_gpio_led_cleanup : List CleanupEvent :=
  [CleanupEvent.unregLedDev]

/-- `n5550_board_exit`: `n5550_pca9532_cleanup();` then
`n5550_ich_gpio_led_cleanup();`, unconditionally. -/
def n5550_board_exit : List CleanupEvent :=
  n5550_pca9532_cleanup ++ n5550_ich_gpio_led_cleanup

/-- Environment of `n5550_board_init`: the environments of the three
bring-up steps it sequences. -/
structure BoardEnv where
  pca : Pca9532Env
  ich : IchGpioEnv
  chips : List GpioChip
  ledRegResult : Int
deriving DecidableEq, Repr

/-- Outcome of `n5550_board_init`: return value and the cleanup events the
error path emitted (empty when no cleanup ran). -/
structure BoardInitOutcome where
  ret : Int
  cleanup : List CleanupEvent
deriving DecidableEq, Repr

/-- `n5550_board_init`: runs `n5550_pca9532_setup`, then
`n5550_ich_gpio_setup`, then `n5550_ich_gpio_led_setup`; a failure of the
first step returns its code with no cleanup, a failure of either later step
jumps to `error:`, runs `n5550_pca9532_cleanup` and returns that step's
code. -/
def n5550_board_init (e : BoardEnv) : BoardInitOutcome :=
  let r1 := (n5550_pca9532_setup e.pca).ret
  if r1 ≠ 0 then
    ⟨r1, []⟩
  else
    let r2 := (n5550_ich_gpio_setup e.ich).ret
    if r2 ≠ 0 then
      ⟨r2, n5550_pca9532_cleanup⟩
    else
      let r3 := (n5550_ich_gpio_led_setup e.chips e.ledRegResult).ret
      if r3 ≠ 0 then
        ⟨r3, n5550_pca9532_cleanup⟩
      else
        ⟨0, []⟩

/-! ## Theorems -/

/-- C3: the controller locator selects the first registered controller whose
label is non-null and equal to `"gpio_ich"` (a null label never matches);
with no match it returns `-ENODEV`; with a match of negative base it returns
`-EINVAL`; otherwise it returns that non-negative base. -/
theorem claim_C3_controller_locator (chips : List GpioChip) :
    (∀ b : Int, n5550_match_ich_gpiochip ⟨none, b⟩ = false) ∧
    (∀ l : String, ∀ b : Int,
      n5550_match_ich_gpiochip ⟨some l, b⟩ = true ↔ l = "gpio_ich") ∧
    ((∀ gc ∈ chips, n5550_match_ich_gpiochip gc = false) →
      n5550_get_ich_gpiobase chips = -ENODEV) ∧
    (∀ pre gc post, chips = pre ++ gc :: post →
      (∀ g ∈ pre, n5550_match_ich_gpiochip g = false) →
      gc.label = some "gpio_ich" →
      n5550_get_ich_gpiobase chips =
        if gc.base < 0 then -EINVAL else gc.base) := by
  refine ⟨?_, ?_, ?_, ?_⟩
  · intro b
    rfl
  · intro l b
    simp [n5550_match_ich_gpiochip]
  · intro hall
    unfold n5550_get_ich_gpiobase
    rw [List.find?_eq_none.mpr]
    intro x hx
    simp [hall x hx]
  · intro pre gc post hchips hpre hlabel
    unfold n5550_get_ich_gpiobase
    rw [hchips, List.find?_append, List.find?_eq_none.mpr, Option.none_or,
      List.find?_cons_of_pos]
    · simp [n5550_match_ich_gpiochip, hlabel]
    · intro x hx
      simp [hpre x hx]

/-- C3 witness: among `{"other", null, "gpio_ich"}` the locator picks the
`"gpio_ich"` chip; here its base is `-1`, so the result is `-EINVAL`. -/
theorem claim_C3_controller_locator_witness :
    n5550_get_ich_gpiobase
      [⟨some "other", 3⟩, ⟨none, 7⟩, ⟨some "gpio_ich", -1⟩] = -EINVAL := by
  have h := (claim_C3_controller_locator
      [⟨some "other", 3⟩, ⟨none, 7⟩, ⟨some "gpio_ich", -1⟩]).2.2.2
      [⟨some "other", 3⟩, ⟨none, 7⟩] ⟨some "gpio_ich", -1⟩ [] rfl
      (by intro g hg; fin_cases hg <;> rfl) rfl
  simpa using h

/-- C4: when the locator returns a non-negative base, LED-device bring-up
resolves the five activity LEDs' pins to base+0, base+2, base+3, base+4,
base+5 and reaches platform-device registration, returning the
registration's result; when the locator fails, its error is returned
unchanged and no registration is attempted. -/
theorem claim_C4_led_pin_resolution (chips : List GpioChip) (regResult : Int) :
    (0 ≤ n5550_get_ich_gpiobase chips →
      (n5550_ich_gpio_led_setup chips regResult).leds.map GpioLed.gpio =
        [n5550_get_ich_gpiobase chips, n5550_get_ich_gpiobase chips + 2,
         n5550_get_ich_gpiobase chips + 3, n5550_get_ich_gpiobase chips + 4,
         n5550_get_ich_gpiobase chips + 5] ∧
      (n5550_ich_gpio_led_setup chips regResult).registered = true ∧
      (n5550_ich_gpio_led_setup chips regResult).ret = regResult) ∧
    (n5550_get_ich_gpiobase chips < 0 →
      (n5550_ich_gpio_led_setup chips regResult).ret =
        n5550_get_ich_gpiobase chips ∧
      (n5550_ich_gpio_led_setup chips regResult).registered = false) := by
  constructor
  · intro h
    simp [n5550_ich_gpio_led_setup, not_lt.mpr h, n5550_ich_gpio_leds,
      n5550_ich_gpio_led_offsets]
  · intro h
    simp [n5550_ich_gpio_led_setup, h]

/-- C4 witness: with a single `"gpio_ich"` controller at base 100 and a
successful registration, the five LEDs resolve to pins
100, 102, 103, 104, 105. -/
theorem claim_C4_led_pin_resolution_witness :
    (n5550_ich_gpio_led_setup [⟨some "gpio_ich", 100⟩] 0).leds.map
        GpioLed.gpio = [100, 102, 103, 104, 105] ∧
    (n5550_ich_gpio_led_setup [⟨some "gpio_ich", 100⟩] 0).registered = true := by
  have h := (claim_C4_led_pin_resolution [⟨some "gpio_ich", 100⟩] 0).1
    (by decide)
  exact ⟨by rw [h.1]; decide, h.2.1⟩

/-- C5: the fixup's effect on each pin-ownership register is old-value OR
fixed-mask; from (0, 0) the registers become exactly 0x1000023D and
0x00000004; the fixup is idempotent on its own output; and every bit set in
the input stays set in the output. -/
theorem claim_C5_fixup_or_semantics :
    n5550_ich_gpio_rmw (0, 0) = (0x1000023D, 0x00000004) ∧
    (∀ r : Nat × Nat,
      n5550_ich_gpio_rmw (n5550_ich_gpio_rmw r) = n5550_ich_gpio_rmw r) ∧
    (∀ r : Nat × Nat, ∀ i : Nat,
      (r.1.testBit i → (n5550_ich_gpio_rmw r).1.testBit i) ∧
      (r.2.testBit i → (n5550_ich_gpio_rmw r).2.testBit i)) ∧
    (∀ env : IchGpioEnv, env.lpcPresent = true →
      (n5550_ich_gpio_setup env).portWrites.map Prod.snd =
        [env.useSel0 ||| N5550_ICH_GPIO_PINS_0,
         env.useSel1 ||| N5550_ICH_GPIO_PINS_1]) := by
  refine ⟨by decide, ?_, ?_, ?_⟩
  · intro r
    simp [n5550_ich_gpio_rmw, Nat.lor_assoc]
  · intro r i
    constructor
    · intro h
      simp [n5550_ich_gpio_rmw, Nat.testBit_lor, h]
    · intro h
      simp [n5550_ich_gpio_rmw, Nat.testBit_lor, h]
  · intro env h
    simp [n5550_ich_gpio_setup, h]

/-- C5 witness: at register pair (1, 1), bit 0 set in the input stays set,
and with the LPC function present and both port reads returning 0 the
written values are exactly the fixed masks. -/
theorem claim_C5_fixup_or_semantics_witness :
    (n5550_ich_gpio_rmw (1, 1)).1.testBit 0 ∧
    (n5550_ich_gpio_rmw (1, 1)).2.testBit 0 ∧
    (n5550_ich_gpio_setup ⟨true, 0, 0, 0⟩).portWrites.map Prod.snd =
      [N5550_ICH_GPIO_PINS_0, N5550_ICH_GPIO_PINS_1] := by
  refine ⟨(claim_C5_fixup_or_semantics.2.2.1 (1, 1) 0).1 (by decide),
    (claim_C5_fixup_or_semantics.2.2.1 (1, 1) 0).2 (by decide), ?_⟩
  have h := claim_C5_fixup_or_semantics.2.2.2 ⟨true, 0, 0, 0⟩ rfl
  simpa using h

/-- C6: when the second chip's registration fails after the first chip was
registered, satellite bring-up unregisters the first chip's device exactly
once and releases the driver reference exactly once before returning
`-ENODEV`. -/
theorem claim_C6_second_registration_rollback (env : Pca9532Env)
    (h0 : env.i2cPciPresent = true) (h1 : env.adapterPresent = true)
    (h2 : env.moduleGetOk = true) (h3 : env.reg0Ok = true)
    (h4 : env.reg1Ok = false) :
    (n5550_pca9532_setup env).unreg0 = 1 ∧
    (n5550_pca9532_setup env).modulePuts = 1 ∧
    (n5550_pca9532_setup env).ret = -ENODEV := by
  simp [n5550_pca9532_setup, h0, h1, h2, h3, h4]

/-- C6 witness: the concrete environment where only the second registration
fails. -/
theorem claim_C6_second_registration_rollback_witness :
    (n5550_pca9532_setup ⟨true, true, true, true, false⟩).unreg0 = 1 ∧
    (n5550_pca9532_setup ⟨true, true, true, true, false⟩).modulePuts = 1 ∧
    (n5550_pca9532_setup ⟨true, true, true, true, false⟩).ret = -ENODEV :=
  claim_C6_second_registration_rollback ⟨true, true, true, true, false⟩
    rfl rfl rfl rfl rfl

/-- C7: satellite bring-up acquires the transient driver reference at most
once, and on every path the number of releases equals the number of
successful acquisitions (so each acquisition is released exactly once); if
the acquisition itself fails, it returns `-EBUSY` without attempting any
device registration. -/
theorem claim_C7_driver_reference_balance (env : Pca9532Env) :
    (n5550_pca9532_setup env).moduleGets ≤ 1 ∧
    (n5550_pca9532_setup env).modulePuts =
      (n5550_pca9532_setup env).moduleGets ∧
    (env.i2cPciPresent = true → env.adapterPresent = true →
      env.moduleGetOk = false →
      (n5550_pca9532_setup env).ret = -EBUSY ∧
      (n5550_pca9532_setup env).regAttempts = 0) := by
  obtain ⟨a, b, c, d, e⟩ := env
  cases a <;> cases b <;> cases c <;> cases d <;> cases e <;> decide

/-- C7 witness: with the adapter present but its owning driver not
pinnable, the result is `-EBUSY` with no registration attempted. -/
theorem claim_C7_driver_reference_balance_witness :
    (n5550_pca9532_setup ⟨true, true, false, true, true⟩).ret = -EBUSY ∧
    (n5550_pca9532_setup ⟨true, true, false, true, true⟩).regAttempts = 0 :=
  (claim_C7_driver_reference_balance ⟨true, true, false, true, true⟩).2.2
    rfl rfl rfl

/-- C8: the fixup fails with `-ENODEV` exactly when the LPC function is
absent, in which case nothing was written; on success the port base is the
config value at 0x48 masked with 0x0000ff80, and the single config-space
write is the unconditional byte 0x10 to register 0x4c. -/
theorem claim_C8_fixup_failure_and_writes (env : IchGpioEnv) :
    ((n5550_ich_gpio_setup env).ret = -ENODEV ↔ env.lpcPresent = false) ∧
    (env.lpcPresent = false →
      (n5550_ich_gpio_setup env).configByteWrites = [] ∧
      (n5550_ich_gpio_setup env).portWrites = []) ∧
    (env.lpcPresent = true →
      (n5550_ich_gpio_setup env).configByteWrites =
        [(N5550_ICH_PCI_GPIO_CTRL, 0x10)] ∧
      (n5550_ich_gpio_setup env).portWrites.map Prod.fst =
        [(env.config48 &&& 0x0000ff80) + N5550_ICH_GPIO_USE_SEL_0,
         (env.config48 &&& 0x0000ff80) + N5550_ICH_GPIO_USE_SEL_1]) := by
  obtain ⟨p, c48, s0, s1⟩ := env
  cases p <;> simp [n5550_ich_gpio_setup, ENODEV]

/-- C8 witness: with the LPC function absent the fixup returns `-ENODEV`
and writes nothing; with it present and config register 0x48 reading
0x1234ff85, the two port writes target base 0xff80. -/
theorem claim_C8_fixup_failure_and_writes_witness :
    (n5550_ich_gpio_setup ⟨false, 0, 0, 0⟩).ret = -ENODEV ∧
    (n5550_ich_gpio_setup ⟨false, 0, 0, 0⟩).portWrites = [] ∧
    (n5550_ich_gpio_setup ⟨true, 0x1234ff85, 0, 0⟩).portWrites.map Prod.fst =
      [0xff80 + N5550_ICH_GPIO_USE_SEL_0, 0xff80 + N5550_ICH_GPIO_USE_SEL_1] := by
  refine ⟨(claim_C8_fixup_failure_and_writes ⟨false, 0, 0, 0⟩).1.mpr rfl,
    ((claim_C8_fixup_failure_and_writes ⟨false, 0, 0, 0⟩).2.1 rfl).2, ?_⟩
  have h := ((claim_C8_fixup_failure_and_writes ⟨true, 0x1234ff85, 0, 0⟩).2.2
    rfl).2
  simpa using h

/-- C10: in both the GPIO fixup and the satellite bring-up, exactly one
`pci_dev_put` happens on every path where `pci_get_device` succeeded, and
none on the path where it failed. -/
theorem claim_C10_pci_reference_balance (e1 : IchGpioEnv) (e2 : Pca9532Env) :
    (n5550_ich_gpio_setup e1).pciPuts =
      (if e1.lpcPresent then 1 else 0) ∧
    (n5550_pca9532_setup e2).pciPuts =
      (if e2.i2cPciPresent then 1 else 0) := by
  obtain ⟨p, c48, s0, s1⟩ := e1
  obtain ⟨a, b, c, d, e⟩ := e2
  cases p <;> cases a <;> cases b <;> cases c <;> cases d <;> cases e <;>
    simp [n5550_ich_gpio_setup, n5550_pca9532_setup]

/-- C1 counterexample: the claim says tear-down unregisters the aggregate
LED platform device before the two satellite devices, but in
`n5550_board_exit` the LED-device event does not precede either satellite
event — `n5550_pca9532_cleanup` runs first. -/
theorem claim_C1_teardown_order_counterexample :
    ¬ (n5550_board_exit.indexOf CleanupEvent.unregLedDev <
         n5550_board_exit.indexOf CleanupEvent.unregSat0 ∧
       n5550_board_exit.indexOf CleanupEvent.unregLedDev <
         n5550_board_exit.indexOf CleanupEvent.unregSat1) := by
  decide

/-- C1 (amended): tear-down runs the satellite-chip cleanup first and the
LED-device cleanup second: `n5550_board_exit` unconditionally unregisters
the two satellite devices and then the aggregate LED platform device. -/
theorem claim_C1_teardown_order :
    n5550_board_exit =
      [CleanupEvent.unregSat0, CleanupEvent.unregSat1,
       CleanupEvent.unregLedDev] ∧
    n5550_board_exit.indexOf CleanupEvent.unregSat0 <
      n5550_board_exit.indexOf CleanupEvent.unregLedDev ∧
    n5550_board_exit.indexOf CleanupEvent.unregSat1 <
      n5550_board_exit.indexOf CleanupEvent.unregLedDev := by
  decide

/-- C2: if satellite bring-up fails, its error is returned with no cleanup;
if the GPIO fixup or the LED bring-up fails after the satellites came up,
the satellite cleanup (unregistering both satellite devices) runs and the
failing step's error code is returned unchanged. -/
theorem claim_C2_init_error_rollback (e : BoardEnv) :
    ((n5550_pca9532_setup e.pca).ret ≠ 0 →
      n5550_board_init e = ⟨(n5550_pca9532_setup e.pca).ret, []⟩) ∧
    ((n5550_pca9532_setup e.pca).ret = 0 →
      (n5550_ich_gpio_setup e.ich).ret ≠ 0 →
      n5550_board_init e =
        ⟨(n5550_ich_gpio_setup e.ich).ret,
         [CleanupEvent.unregSat0, CleanupEvent.unregSat1]⟩) ∧
    ((n5550_pca9532_setup e.pca).ret = 0 →
      (n5550_ich_gpio_setup e.ich).ret = 0 →
      (n5550_ich_gpio_led_setup e.chips e.ledRegResult).ret ≠ 0 →
      n5550_board_init e =
        ⟨(n5550_ich_gpio_led_setup e.chips e.ledRegResult).ret,
         [CleanupEvent.unregSat0, CleanupEvent.unregSat1]⟩) := by
  refine ⟨?_, ?_, ?_⟩
  · intro h1
    simp [n5550_board_init, h1]
  · intro h1 h2
    simp [n5550_board_init, n5550_pca9532_cleanup, h1, h2]
  · intro h1 h2 h3
    simp [n5550_board_init, n5550_pca9532_cleanup, h1, h2, h3]

/-- C2 witness: satellites come up, the GPIO fixup fails with `-ENODEV`
(LPC function absent); init returns `-ENODEV` after unregistering both
satellite devices. -/
theorem claim_C2_init_error_rollback_witness :
    n5550_board_init
      ⟨⟨true, true, true, true, true⟩, ⟨false, 0, 0, 0⟩, [], 0⟩ =
      ⟨-ENODEV, [CleanupEvent.unregSat0, CleanupEvent.unregSat1]⟩ := by
  have h := (claim_C2_init_error_rollback
      ⟨⟨true, true, true, true, true⟩, ⟨false, 0, 0, 0⟩, [], 0⟩).2.1
      (by decide) (by decide)
  simpa [n5550_ich_gpio_setup] using h

/-- C9: the two 16-slot role tables: chip 0x64 has the five red disk-stat
LEDs in slots 0–4 (all off) and nothing else; chip 0x62 has multiplexed
GPIO pins in slots 0–3 and 15, the orange busy LED in slot 9, the blue USB
LED in slot 10, the red fail LED in slot 12 (all off) and nothing else;
PWM and PSC values are all zero. -/
theorem claim_C9_role_tables :
    n5550_pca9532_0_info.addr = 0x64 ∧
    n5550_pca9532_1_info.addr = 0x62 ∧
    n5550_pca9532_0_info.platform_data = n5550_pca9532_0_pdata ∧
    n5550_pca9532_1_info.platform_data = n5550_pca9532_1_pdata ∧
    n5550_pca9532_0_pdata.leds.length = 16 ∧
    n5550_pca9532_1_pdata.leds.length = 16 ∧
    (∀ i : Fin 16, i.val < 5 →
      n5550_pca9532_0_pdata.leds.getD i.val pcaNone =
        ⟨"n5550:red:disk-stat-" ++ toString i.val, Pca9532Type.LED,
         Pca9532State.OFF⟩) ∧
    (∀ i : Fin 16, 5 ≤ i.val →
      (n5550_pca9532_0_pdata.leds.getD i.val pcaNone).type =
        Pca9532Type.NONE) ∧
    (∀ i : Fin 16, (i.val < 4 ∨ i.val = 15) →
      n5550_pca9532_1_pdata.leds.getD i.val pcaNone =
        ⟨"", Pca9532Type.GPIO, Pca9532State.OFF⟩) ∧
    n5550_pca9532_1_pdata.leds.getD 9 pcaNone =
      ⟨"n5550:orange:busy", Pca9532Type.LED, Pca9532State.OFF⟩ ∧
    n5550_pca9532_1_pdata.leds.getD 10 pcaNone =
      ⟨"n5550:blue:usb", Pca9532Type.LED, Pca9532State.OFF⟩ ∧
    n5550_pca9532_1_pdata.leds.getD 12 pcaNone =
      ⟨"n5550:red:fail", Pca9532Type.LED, Pca9532State.OFF⟩ ∧
    (∀ i : Fin 16, i.val ∈ ([4, 5, 6, 7, 8, 11, 13, 14] : List Nat) →
      (n5550_pca9532_1_pdata.leds.getD i.val pcaNone).type =
        Pca9532Type.NONE) ∧
    n5550_pca9532_0_pdata.pwm = (0, 0) ∧
    n5550_pca9532_0_pdata.psc = (0, 0) ∧
    n5550_pca9532_1_pdata.pwm = (0, 0) ∧
    n5550_pca9532_1_pdata.psc = (0, 0) := by
  decide

/-- C9 witness: slot 0 of chip 0x64 and slot 15 of chip 0x62, read off the
role-table theorem at concrete indices. -/
theorem claim_C9_role_tables_witness :
    n5550_pca9532_0_pdata.leds.getD 0 pcaNone =
      ⟨"n5550:red:disk-stat-0", Pca9532Type.LED, Pca9532State.OFF⟩ ∧
    n5550_pca9532_1_pdata.leds.getD 15 pcaNone =
      ⟨"", Pca9532Type.GPIO, Pca9532State.OFF⟩ := by
  constructor
  · have h := claim_C9_role_tables.2.2.2.2.2.2.1 ⟨0, by decide⟩ (by decide)
    simpa using h
  · have h := claim_C9_role_tables.2.2.2.2.2.2.2.2.1 ⟨15, by decide⟩
      (Or.inr rfl)
    exact h

end N5550
